import Mathlib

/-!
Shallow embedding of the dialog-orchestration core of this repository:
`ComponentDialog` (src/libraries/botbuilder-dialogs/src/componentDialog.ts) and
`ActivityPrompt` (src/libraries/botbuilder-dialogs/src/prompts/activityPrompt.ts).
Collaborator classes (`Dialog`, `DialogContext`, `StateMap`, enums from
`dialog.ts`) are not part of the shown sources; where their behaviour decides
a claim they are modelled from the spec and marked as such.
-/

namespace BotBuilder

/-- Activity type discriminator. The core only inspects whether an activity is a
message (`ActivityTypes.Message`); every other discriminator is opaque. -/
inductive ActivityType where
  | message
  | event
  | other
deriving DecidableEq, Repr

/-- One inbound turn's input: a discriminated type plus opaque content. -/
structure Activity where
  type : ActivityType
  text : String
deriving DecidableEq, Repr

/-- Input hints attached to outgoing prompt activities (`InputHints` from
botbuilder-core). The code only ever assigns `ExpectingInput`. -/
inductive InputHint where
  | expectingInput
  | acceptingInput
  | ignoringInput
deriving DecidableEq, Repr

/-- An activity-shaped prompt message: opaque content plus an optional input
hint (TS `Partial<Activity>`, where `inputHint` may be absent). -/
structure ActivityMsg where
  text : String
  inputHint : Option InputHint
deriving DecidableEq, Repr

/-- A prompt message as accepted by `PromptOptions`: either a plain string or
an activity object (TS `string | Partial<Activity>`). -/
inductive PromptMsg where
  | str (s : String)
  | act (a : ActivityMsg)
deriving DecidableEq, Repr

/-- JavaScript truthiness of an optional prompt message: `undefined` and the
empty string are falsy, every object is truthy. Mirrors the truth tests
`options.retryPrompt` / `options.prompt` in `ActivityPrompt.onPrompt` and
`ActivityPrompt.beginDialog`. -/
def PromptMsg.truthy : Option PromptMsg → Bool
  | none => false
  | some (.str s) => s ≠ ""
  | some (.act _) => true

/-- Prompt options persisted by `ActivityPrompt.beginDialog`: the initial
prompt and the optional retry prompt (the fields of `PromptOptions` that
`ActivityPrompt` reads). -/
structure PromptOptions where
  prompt : Option PromptMsg
  retryPrompt : Option PromptMsg
deriving DecidableEq, Repr

/-- Result of a prompt recognition step (`PromptRecognizerResult<T>`):
succeeded flag, extracted value, allow-interruption flag. In TS
`allowInterruption` is optional; `!recognized.allowInterruption` coerces an
absent value exactly like `false`, so it is modelled as a `Bool`. -/
structure PromptRecognizerResult (α : Type) where
  succeeded : Bool
  value : Option α
  allowInterruption : Bool
deriving DecidableEq, Repr

/-- Reason a dialog lifecycle method is invoked (`DialogReason` from
`dialog.ts`, which is not among the shown sources; constructors per the spec's
reason set {begin, continue, end/normal-completion, replace, cancelled, next}). -/
inductive DialogReason where
  | beginCalled
  | continueCalled
  | endCalled
  | replaceCalled
  | cancelCalled
  | nextCalled
deriving DecidableEq, Repr

/-- Status of a dialog turn (`DialogTurnStatus`): the spec's Turn Outcome tags
*waiting* / *complete* / *cancelled*, plus *empty* for "no active dialog". -/
inductive DialogTurnStatus where
  | empty
  | waiting
  | complete
  | cancelled
deriving DecidableEq, Repr

/-- Result returned by a dialog lifecycle method (`DialogTurnResult`). -/
structure DialogTurnResult (α : Type) where
  status : DialogTurnStatus
  result : Option α
deriving DecidableEq, Repr

/-- Modelled from the spec: `Dialog.EndOfTurn` (`dialog.ts` is not among the
shown sources). The constant turn result signalling *waiting* — "returning a
*waiting* outcome ends the synchronous turn" — with no result value. -/
def Dialog.EndOfTurn {α : Type} : DialogTurnResult α :=
  { status := DialogTurnStatus.waiting, result := none }

/-- A value stored in a frame's dialog-scope state map. `ActivityPrompt`
stores its `PromptOptions` under one key and a recognition-state blob (an
object treated opaquely; modelled as a string association list) under another. -/
inductive StateVal where
  | opts (o : PromptOptions)
  | blob (b : List (String × String))
deriving DecidableEq, Repr

/-- A dialog-scope state map: string keys to stored values (spec §4.1; the
`StateMap` class itself is not among the shown sources). -/
abbrev StateMap := List (String × StateVal)

/-- Modelled from the spec: `StateMap.set` (§4.1 "set(key, value)"), replacing
any existing binding for the key. -/
def StateMap.set (m : StateMap) (k : String) (v : StateVal) : StateMap :=
  (m.filter (fun p => p.1 ≠ k)) ++ [(k, v)]

/-- Modelled from the spec: `StateMap.get` (§4.1 "get(key) -> value|undefined"). -/
def StateMap.get (m : StateMap) (k : String) : Option StateVal :=
  (m.find? (fun p => p.1 = k)).map (fun p => p.2)

/-- Lookup of a stored `PromptOptions`; `none` when the key is absent (the TS
value would be `undefined`). -/
def StateMap.getOpts (m : StateMap) (k : String) : Option PromptOptions :=
  match StateMap.get m k with
  | some (StateVal.opts o) => some o
  | _ => none

/-- Lookup of a stored recognition-state blob; `none` when the key is absent. -/
def StateMap.getBlob (m : StateMap) (k : String) : Option (List (String × String)) :=
  match StateMap.get m k with
  | some (StateVal.blob b) => some b
  | _ => none

/-- One entry of a dialog stack (`DialogInstance`): a dialog identifier plus
the frame's private dialog-scope state. -/
structure DialogInstance where
  id : String
  state : StateMap
deriving DecidableEq, Repr

/-- Modelled from the spec: the slice of `DialogContext` the prompt claims
need (`dialogContext.ts` is not among the shown sources). Per §4.3 / §3 it
carries the ordered frame stack (most-recently-pushed last) and the turn's
context (activity, responded flag). -/
structure DialogContextM where
  stack : List DialogInstance
  activity : Activity
  responded : Bool
deriving DecidableEq, Repr

/-- Outcome of `DialogContext.endDialog` as seen from the frame that called
it. Modelled from the spec (§4.3): pops the top frame, then either resumes the
new top frame or returns *complete* to the caller when the stack emptied. -/
inductive EndDialogOutcome (α : Type) where
  | completeToCaller (result : Option α)
  | resumedParent (parentId : String) (result : Option α)
deriving DecidableEq, Repr

/-- Modelled from the spec: `DialogContext.endDialog(result)` (§4.3) — "pops
the top frame …, then calls resumeDialog(reason=normal, result) on the new top
frame, or returns *complete* to the caller if the stack is now empty". Only
the pop and the hand-over of the result are modelled; the resumed parent's own
behaviour is outside the shown sources. -/
def DialogContextM.endDialogOp {α : Type} (dc : DialogContextM) (result : Option α) :
    DialogContextM × EndDialogOutcome α :=
  let stack2 := dc.stack.dropLast
  ({ dc with stack := stack2 },
   match stack2.getLast? with
   | none => EndDialogOutcome.completeToCaller result
   | some parent => EndDialogOutcome.resumedParent parent.id result)

/-- What a prompt turn handed back to the stack machinery: either the frame
was ended through `DialogContext.endDialog`, or `Dialog.EndOfTurn` (*waiting*)
was returned with the frame left on the stack. -/
inductive PromptTurnOutcome (α : Type) where
  | ended (out : EndDialogOutcome α)
  | endOfTurn
deriving DecidableEq, Repr

/-- The recognizer contract used by `ActivityPrompt.continueDialog` /
`onDialogEvent`: the virtual `onRecognize(context, state, options)` method,
taken as a parameter because subclasses may override it. The state blob and
options arrive exactly as looked up from dialog scope (possibly absent). -/
abbrev Recognizer :=
  Activity → Option (List (String × String)) → Option PromptOptions →
    PromptRecognizerResult Activity

/-- The record handed to the injected validator by
`ActivityPrompt.continueDialog`: `{context, recognized, state, options}`
(context modelled by the turn's activity and responded flag). -/
structure PromptValidatorContext where
  activity : Activity
  responded : Bool
  recognized : PromptRecognizerResult Activity
  state : Option (List (String × String))
  options : Option PromptOptions
deriving DecidableEq

/-- The injected validator (`PromptValidator<Activity>`): a pure function of
the validator context to a boolean (spec §4.6 validator contract). -/
abbrev Validator := PromptValidatorContext → Bool

namespace ActivityPrompt

/-- The persisted-options key `PERSISTED_OPTIONS` of `activityPrompt.ts`. -/
def PERSISTED_OPTIONS : String := "options"

/-- The persisted-recognition-state key `PERSISTED_STATE` of `activityPrompt.ts`. -/
def PERSISTED_STATE : String := "state"

/-- The input-hint defaulting of `ActivityPrompt.beginDialog`: when a prompt
message is an object whose `inputHint` is not a string, `inputHint` is set to
`InputHints.ExpectingInput`; string prompts and absent prompts are untouched. -/
def fillInputHint : Option PromptMsg → Option PromptMsg
  | some (PromptMsg.act a) =>
      some (PromptMsg.act
        { a with inputHint := match a.inputHint with
                              | none => some InputHint.expectingInput
                              | some h => some h })
  | x => x

/-- The output of `ActivityPrompt.onPrompt(context, state, options, isRetry)`:
sends `options.retryPrompt` when `isRetry` and a (truthy) retry prompt exists,
otherwise sends `options.prompt` when truthy, otherwise sends nothing. Returns
the message sent, if any. -/
def onPromptOutput (options : PromptOptions) (isRetry : Bool) : Option PromptMsg :=
  if isRetry && PromptMsg.truthy options.retryPrompt then options.retryPrompt
  else if PromptMsg.truthy options.prompt then options.prompt
  else none

/-- `ActivityPrompt.beginDialog(dc, options)`: defaults input hints on the
caller's options, stores the resulting options under `PERSISTED_OPTIONS` and
an empty state blob under `PERSISTED_STATE` in the frame's dialog scope, sends
the initial (non-retry) prompt via `onPrompt(..., false)`, and returns
`Dialog.EndOfTurn`. Returns (updated dialog scope, message sent, turn result). -/
def beginDialog (options : PromptOptions) (st : StateMap) :
    StateMap × Option PromptMsg × DialogTurnResult Activity :=
  let opt : PromptOptions :=
    { prompt := fillInputHint options.prompt
      retryPrompt := fillInputHint options.retryPrompt }
  let st1 := StateMap.set st PERSISTED_OPTIONS (StateVal.opts opt)
  let st2 := StateMap.set st1 PERSISTED_STATE (StateVal.blob [])
  (st2, onPromptOutput opt false, Dialog.EndOfTurn)

/-- `ActivityPrompt.continueDialog(dc)`: looks up the persisted state blob and
options from the active frame's dialog scope, runs recognition, invokes the
injected validator; on acceptance ends the dialog via
`dc.endDialog(recognized.value)`, on rejection re-prompts (retry form) when
the turn's activity is a message and nothing has been sent this turn, and
returns `Dialog.EndOfTurn`. `none` models the TS type errors: no active frame
(`dc.state.dialog` throws), or `onPrompt` reading `options.retryPrompt` off an
absent options object in the re-prompt branch. -/
def continueDialog (recognize : Recognizer) (validator : Validator)
    (dc : DialogContextM) :
    Option (DialogContextM × Option PromptMsg × PromptTurnOutcome Activity) :=
  match dc.stack.getLast? with
  | none => none
  | some inst =>
    let state := StateMap.getBlob inst.state PERSISTED_STATE
    let options := StateMap.getOpts inst.state PERSISTED_OPTIONS
    let recognized := recognize dc.activity state options
    let isValid := validator
      { activity := dc.activity
        responded := dc.responded
        recognized := recognized
        state := state
        options := options }
    if isValid then
      let r := DialogContextM.endDialogOp dc recognized.value
      some (r.1, none, PromptTurnOutcome.ended r.2)
    else if dc.activity.type = ActivityType.message ∧ dc.responded = false then
      match options with
      | some o => some (dc, onPromptOutput o true, PromptTurnOutcome.endOfTurn)
      | none => none
    else
      some (dc, none, PromptTurnOutcome.endOfTurn)

/-- The `consultDialog` case of `ActivityPrompt.onDialogEvent`: re-runs
recognition over the current activity against the frame's persisted state and
options, and reports *should-process* (`true`) exactly when
`recognized.succeeded && !recognized.allowInterruption`. Any other event name
falls through to the base `Dialog.onDialogEvent` (modelled from the spec:
absence of interest, i.e. `false`). `st` is the active frame's dialog scope. -/
def onDialogEvent (recognize : Recognizer) (activity : Activity)
    (st : StateMap) (eventName : String) : Bool :=
  if eventName = "consultDialog" then
    let recognized := recognize activity
      (StateMap.getBlob st PERSISTED_STATE) (StateMap.getOpts st PERSISTED_OPTIONS)
    recognized.succeeded && !recognized.allowInterruption
  else false

/-- The base `ActivityPrompt.onRecognize`: succeeds with the turn's raw
activity as value and `allowInterruption` set to `true`. -/
def onRecognize : Recognizer :=
  fun activity _ _ =>
    { succeeded := true, value := some activity, allowInterruption := true }

/-- `ActivityPrompt.repromptDialog(context, instance)`: re-sends the prompt in
retry form from the persisted options of the frame's state. `none` models the
TS type error when no options are persisted (`options.retryPrompt` off
`undefined`). Returns the message sent, if any. -/
def repromptDialog (st : StateMap) : Option (Option PromptMsg) :=
  match StateMap.getOpts st PERSISTED_OPTIONS with
  | some o => some (onPromptOutput o true)
  | none => none

/-- `ActivityPrompt.resumeDialog(dc, reason, result)`: ignores `reason` and
`result`, re-prompts via `repromptDialog`, and returns `Dialog.EndOfTurn`. -/
def resumeDialog (st : StateMap) (reason : DialogReason) (result : Option Activity) :
    Option (Option PromptMsg × DialogTurnResult Activity) :=
  (repromptDialog st).map (fun sent => (sent, Dialog.EndOfTurn))

end ActivityPrompt

/-- Desire carried by a dialog consultation (`DialogConsultationDesire` from
`dialog.ts`, not among the shown sources): *can-process* (fallback handler) or
*should-process* (active claim). The spec's third priority, *no-interest*, is
represented by the absence of a consultation (§4.2: "absence is equivalent to
*no-interest*"), i.e. by `none` at `Option DialogConsultationDesire`. -/
inductive DialogConsultationDesire where
  | canProcess
  | shouldProcess
deriving DecidableEq, Repr

namespace ComponentDialog

/-- An observable step of `ComponentDialog.endDialog`: either an inner frame's
`endDialog(reason=cancelled)` ran during `innerDC.cancelAllDialogs()`, or the
component-local `onEndDialog` cleanup hook was invoked. -/
inductive CDEvent where
  | innerCancelled (id : String)
  | onEndDialogHook (reason : DialogReason)
deriving DecidableEq, Repr

/-- Modelled from the spec: `DialogContext.cancelAllDialogs()` (§4.3,
`dialogContext.ts` is not among the shown sources) — "pops every frame from
top to bottom, calling each one's endDialog with reason cancelled". The stack
is most-recently-pushed last, so frames are cancelled in reverse order and the
stack empties. -/
def cancelAllDialogs (stack : List DialogInstance) :
    List CDEvent × List DialogInstance :=
  (stack.reverse.map (fun f => CDEvent.innerCancelled f.id), [])

/-- `ComponentDialog.endDialog(context, instance, reason)`: when the reason is
`cancelCalled`, first runs `innerDC.cancelAllDialogs()` over the component's
private inner stack, then notifies the component via `onEndDialog`; for any
other reason only `onEndDialog` runs and the inner stack is untouched. Returns
the ordered event trace and the resulting inner stack. -/
def endDialog (innerStack : List DialogInstance) (reason : DialogReason) :
    List CDEvent × List DialogInstance :=
  if reason = DialogReason.cancelCalled then
    let r := cancelAllDialogs innerStack
    (r.1 ++ [CDEvent.onEndDialogHook reason], r.2)
  else
    ([CDEvent.onEndDialogHook reason], innerStack)

/-- The action `ComponentDialog.beginDialog` takes on the outer dialog
context: either the outer frame is ended with a result (through
`endComponent`, i.e. `outerDC.endDialog(result)`), or `Dialog.EndOfTurn` is
returned leaving the outer frame on the stack. -/
inductive OuterAction (α : Type) where
  | endDialogWith (result : Option α)
  | endOfTurn
deriving DecidableEq, Repr

/-- `ComponentDialog.endComponent(outerDC, result)`: calls
`outerDC.endDialog(result)`, ending the outer frame with the inner result. -/
def endComponent {α : Type} (result : Option α) : OuterAction α :=
  OuterAction.endDialogWith result

/-- `ComponentDialog.beginDialog(outerDC, options)`: starts the entry dialog
on the inner stack (`onBeginDialog`, whose turn result is the parameter here)
and checks for end of the inner dialog — when the inner status is anything
other than `waiting`, the inner result is returned to the calling dialog via
`endComponent`; otherwise `Dialog.EndOfTurn` signals end of turn. -/
def beginDialog {α : Type} (innerTurnResult : DialogTurnResult α) : OuterAction α :=
  if innerTurnResult.status ≠ DialogTurnStatus.waiting then
    endComponent innerTurnResult.result
  else
    OuterAction.endOfTurn

/-- `ComponentDialog.consultDialog(outerDC)`: consults the inner stack
(`onConsultDialog`, whose aggregated desire — `none` when the inner stack
produced no consultation — is the parameter) and always returns a consultation
whose desire is the inner desire when present and
`DialogConsultationDesire.canProcess` otherwise; its processor invokes
`onContinueDialog(innerDC, innerConsultation)` (not modelled). At the result
type, `none` would represent a *no-interest* (absent) consultation; this
function never returns it. -/
def consultDialog (innerConsultation : Option DialogConsultationDesire) :
    Option DialogConsultationDesire :=
  some (match innerConsultation with
        | some d => d
        | none => DialogConsultationDesire.canProcess)

/-- An observable step of `ComponentDialog.repromptDialog`: the inner stack's
top frame was asked to re-prompt (`innerDC.repromptDialog()`, modelled from
the spec §4.3 "delegates to the top frame only"), then the component-local
`onRepromptDialog` hook ran. -/
inductive CDRepromptEvent where
  | innerReprompt
  | onRepromptHook
deriving DecidableEq, Repr

/-- `ComponentDialog.repromptDialog(context, instance)`: forwards to the inner
stack, then notifies the component. -/
def repromptDialog : List CDRepromptEvent :=
  [CDRepromptEvent.innerReprompt, CDRepromptEvent.onRepromptHook]

/-- `ComponentDialog.resumeDialog(dc, reason, result)`: ignores `reason` and
`result`, asks the inner stack to re-prompt via `repromptDialog`, and returns
`Dialog.EndOfTurn`. -/
def resumeDialog {α : Type} (reason : DialogReason) (result : Option α) :
    List CDRepromptEvent × DialogTurnResult α :=
  (repromptDialog, Dialog.EndOfTurn)

/-- The registration state of a component: the identifiers added to its
private `DialogSet` (in order) and the `initialDialogId` property. -/
structure Registry where
  dialogs : List String
  initialDialogId : Option String
deriving DecidableEq, Repr

/-- `ComponentDialog.addDialog(dialog)`: adds the dialog to the component's
internal `DialogSet` and, when `initialDialogId` is still `undefined`, assigns
it the added dialog's id. -/
def addDialog (cd : Registry) (id : String) : Registry :=
  { dialogs := cd.dialogs ++ [id]
    initialDialogId :=
      match cd.initialDialogId with
      | none => some id
      | some x => some x }

/-- A sequence of `addDialog` calls, in order. -/
def addDialogs (cd : Registry) (ids : List String) : Registry :=
  ids.foldl addDialog cd

/-- The entry dialog `ComponentDialog.onBeginDialog` starts on the inner
stack: `innerDC.beginDialog(this.initialDialogId, options)`. -/
def onBeginDialogTarget (cd : Registry) : Option String :=
  cd.initialDialogId

end ComponentDialog

/-- The prompt options persisted in the active (top) frame's dialog scope, as
seen through `dc.state.dialog.get(PERSISTED_OPTIONS)`; `none` when there is no
active frame or no options are persisted. -/
def DialogContextM.activeOptions (dc : DialogContextM) : Option PromptOptions :=
  match dc.stack.getLast? with
  | some inst => StateMap.getOpts inst.state ActivityPrompt.PERSISTED_OPTIONS
  | none => none

/-- Sample prompt options (initial text plus retry text), used to evaluate the
embedding on concrete inputs. -/
def sampleOptions : PromptOptions :=
  { prompt := some (PromptMsg.str "Name?")
    retryPrompt := some (PromptMsg.str "Please answer.") }

/-- A dialog-scope state map exactly as `ActivityPrompt.beginDialog` persists
it for `sampleOptions`. -/
def sampleState : StateMap :=
  [(ActivityPrompt.PERSISTED_OPTIONS, StateVal.opts sampleOptions),
   (ActivityPrompt.PERSISTED_STATE, StateVal.blob [])]

/-- A concrete prompt frame holding `sampleState`. -/
def sampleInstance : DialogInstance :=
  { id := "prompt", state := sampleState }

/-- A concrete dialog context: one prompt frame on the stack, an inbound
message activity, nothing sent yet this turn. -/
def sampleDC : DialogContextM :=
  { stack := [sampleInstance]
    activity := { type := ActivityType.message, text := "Alice" }
    responded := false }

theorem StateMap.find?_filter_ne (m : StateMap) (k : String) :
    (m.filter (fun p => p.1 ≠ k)).find? (fun p => decide (p.1 = k)) = none := by
  rw [List.find?_eq_none]
  intro x hx
  have := List.of_mem_filter hx
  simpa using this

/-- Reading back the key just written by `StateMap.set` yields the new value. -/
theorem StateMap.get_set_self (m : StateMap) (k : String) (v : StateVal) :
    StateMap.get (StateMap.set m k v) k = some v := by
  unfold StateMap.get StateMap.set
  rw [List.find?_append, StateMap.find?_filter_ne]
  simp

theorem StateMap.find?_set_ne (m : StateMap) (k k' : String) (v : StateVal)
    (h : k' ≠ k) :
    ((m.filter (fun p => p.1 ≠ k)) ++ [(k, v)]).find? (fun p => p.1 = k') =
      m.find? (fun p => p.1 = k') := by
  induction m with
  | nil => simp [List.find?, Ne.symm h]
  | cons p rest ih =>
    by_cases hp : p.1 = k
    · have hq : ¬ p.1 = k' := fun hc => h (hc ▸ hp)
      rw [List.filter_cons_of_neg (by simp [hp]),
          List.find?_cons_of_neg _ (by simp [hq]), ih]
    · rw [List.filter_cons_of_pos (by simp [hp]), List.cons_append]
      by_cases hq : p.1 = k'
      · rw [List.find?_cons_of_pos _ (by simp [hq]),
            List.find?_cons_of_pos _ (by simp [hq])]
      · rw [List.find?_cons_of_neg _ (by simp [hq]),
            List.find?_cons_of_neg _ (by simp [hq]), ih]

/-- `StateMap.set` leaves every other key's value unchanged. -/
theorem StateMap.get_set_ne (m : StateMap) (k k' : String) (v : StateVal)
    (h : k' ≠ k) : StateMap.get (StateMap.set m k v) k' = StateMap.get m k' := by
  unfold StateMap.get StateMap.set
  rw [StateMap.find?_set_ne m k k' v h]

/-- C1: `ComponentDialog.endDialog` with reason cancellation cancels every
frame of the private inner dialog stack — `cancelAllDialogs` ends each inner
frame, top of stack first, emptying the stack — and only then invokes the
component-local `onEndDialog` cleanup hook; for any other reason no inner
frame is cancelled, the inner stack is untouched, and only the cleanup hook
runs. -/
theorem claim_C1 (innerStack : List DialogInstance) (reason : DialogReason) :
    ComponentDialog.endDialog innerStack reason =
      if reason = DialogReason.cancelCalled then
        (innerStack.reverse.map (fun f => ComponentDialog.CDEvent.innerCancelled f.id)
           ++ [ComponentDialog.CDEvent.onEndDialogHook reason], [])
      else
        ([ComponentDialog.CDEvent.onEndDialogHook reason], innerStack) := by
  by_cases h : reason = DialogReason.cancelCalled <;>
    simp [ComponentDialog.endDialog, ComponentDialog.cancelAllDialogs, h]

/-- C2 counterexample: the claim predicts that any inner result other than
*complete* leaves the outer frame waiting, but `ComponentDialog.beginDialog`
tests `status !== waiting`: at the concrete inner result
`{status := cancelled, result := none}` (not *complete*) the code ends the
outer frame via `endComponent` instead of returning the waiting outcome. -/
theorem claim_C2_counterexample :
    ComponentDialog.beginDialog (α := Unit)
        { status := DialogTurnStatus.cancelled, result := none } =
      ComponentDialog.OuterAction.endDialogWith none ∧
    ComponentDialog.beginDialog (α := Unit)
        { status := DialogTurnStatus.cancelled, result := none } ≠
      ComponentDialog.OuterAction.endOfTurn ∧
    DialogTurnStatus.cancelled ≠ DialogTurnStatus.complete := by
  refine ⟨rfl, ?_, ?_⟩ <;> decide

/-- C2 (amended): `ComponentDialog.beginDialog` leaves the outer frame on the
stack with a *waiting* outcome exactly when the inner turn result's status is
*waiting*; for every non-waiting inner status (complete or cancelled) it
immediately ends the outer frame with the inner result via `endComponent`
(which calls the outer context's `endDialog` with that result). -/
theorem claim_C2 {α : Type} (innerTurnResult : DialogTurnResult α) :
    ComponentDialog.beginDialog innerTurnResult =
      if innerTurnResult.status = DialogTurnStatus.waiting then
        ComponentDialog.OuterAction.endOfTurn
      else
        ComponentDialog.endComponent innerTurnResult.result := by
  by_cases h : innerTurnResult.status = DialogTurnStatus.waiting <;>
    simp [ComponentDialog.beginDialog, h]

/-- C3: the `consultDialog` dialog event of `ActivityPrompt` reports
*should-process* (returns `true`) exactly when the recognition step over the
current activity returns `succeeded = true` and `allowInterruption = false`;
in every other case (recognition failed, or it succeeded but allows
interruption) it does not report *should-process*. -/
theorem claim_C3 (recognize : Recognizer) (activity : Activity) (st : StateMap) :
    ActivityPrompt.onDialogEvent recognize activity st "consultDialog" = true ↔
      ((recognize activity (StateMap.getBlob st ActivityPrompt.PERSISTED_STATE)
          (StateMap.getOpts st ActivityPrompt.PERSISTED_OPTIONS)).succeeded = true ∧
       (recognize activity (StateMap.getBlob st ActivityPrompt.PERSISTED_STATE)
          (StateMap.getOpts st ActivityPrompt.PERSISTED_OPTIONS)).allowInterruption = false) := by
  simp [ActivityPrompt.onDialogEvent]

/-- C10: the base `ActivityPrompt.onRecognize` returns `succeeded = true`
with the turn's raw activity as the recognized value and
`allowInterruption = true`; consequently the prompt's `consultDialog` event
handler under the base recognizer returns `false` (never claims
*should-process*) for every activity and every persisted state. -/
theorem claim_C10 (activity : Activity) (st : StateMap)
    (blob : Option (List (String × String))) (opts : Option PromptOptions) :
    ActivityPrompt.onRecognize activity blob opts =
      { succeeded := true, value := some activity, allowInterruption := true } ∧
    ActivityPrompt.onDialogEvent ActivityPrompt.onRecognize activity st
      "consultDialog" = false := by
  exact ⟨rfl, rfl⟩

/-- C4: `resumeDialog` on an `ActivityPrompt` (with well-formed persisted
options, as `beginDialog` always leaves them) and on a `ComponentDialog`,
for every reason and result, does not fail and does not end the frame: it
re-issues the dialog's prompt output through `repromptDialog` and returns
`Dialog.EndOfTurn`, whose status is *waiting*, leaving the frame on the
stack. -/
theorem claim_C4 (st : StateMap) (o : PromptOptions)
    (hopts : StateMap.getOpts st ActivityPrompt.PERSISTED_OPTIONS = some o)
    (reason : DialogReason) (result : Option Activity) :
    ActivityPrompt.resumeDialog st reason result =
      some (ActivityPrompt.onPromptOutput o true, Dialog.EndOfTurn) ∧
    ComponentDialog.resumeDialog (α := Activity) reason result =
      (ComponentDialog.repromptDialog, Dialog.EndOfTurn) ∧
    (Dialog.EndOfTurn : DialogTurnResult Activity).status = DialogTurnStatus.waiting := by
  refine ⟨?_, rfl, rfl⟩
  simp [ActivityPrompt.resumeDialog, ActivityPrompt.repromptDialog, hopts]

theorem claim_C4_witness :
    ActivityPrompt.resumeDialog sampleState DialogReason.endCalled none =
      some (ActivityPrompt.onPromptOutput sampleOptions true, Dialog.EndOfTurn) ∧
    ComponentDialog.resumeDialog (α := Activity) DialogReason.endCalled none =
      (ComponentDialog.repromptDialog, Dialog.EndOfTurn) ∧
    (Dialog.EndOfTurn : DialogTurnResult Activity).status = DialogTurnStatus.waiting :=
  claim_C4 sampleState sampleOptions rfl DialogReason.endCalled none

/-- C5: on a continuation turn of `ActivityPrompt` (with the persisted options
and recognition-state blob that `beginDialog` left in the frame's dialog
scope): when the injected validator accepts the recognition record, the prompt
ends its own frame via `dc.endDialog` with the recognized value as the result;
when the validator rejects, the prompt sends the retry prompt if one was
supplied (truthy) in the persisted options and the initial prompt otherwise —
but only when the turn's activity is a message and nothing has been sent this
turn — and in every rejection case returns `Dialog.EndOfTurn` (*waiting*). -/
theorem claim_C5 (recognize : Recognizer) (validator : Validator)
    (dc : DialogContextM) (inst : DialogInstance) (o : PromptOptions)
    (b : List (String × String))
    (htop : dc.stack.getLast? = some inst)
    (hopts : StateMap.getOpts inst.state ActivityPrompt.PERSISTED_OPTIONS = some o)
    (hblob : StateMap.getBlob inst.state ActivityPrompt.PERSISTED_STATE = some b) :
    ActivityPrompt.continueDialog recognize validator dc =
      (if validator { activity := dc.activity, responded := dc.responded,
                      recognized := recognize dc.activity (some b) (some o),
                      state := some b, options := some o } then
         some ((DialogContextM.endDialogOp dc
                  (recognize dc.activity (some b) (some o)).value).1,
               none,
               PromptTurnOutcome.ended
                 (DialogContextM.endDialogOp dc
                    (recognize dc.activity (some b) (some o)).value).2)
       else if dc.activity.type = ActivityType.message ∧ dc.responded = false then
         some (dc,
               (if PromptMsg.truthy o.retryPrompt then o.retryPrompt
                else if PromptMsg.truthy o.prompt then o.prompt else none),
               PromptTurnOutcome.endOfTurn)
       else
         some (dc, none, PromptTurnOutcome.endOfTurn)) := by
  simp only [ActivityPrompt.continueDialog, htop, hopts, hblob,
             ActivityPrompt.onPromptOutput, Bool.true_and]

theorem claim_C5_witness :
    ActivityPrompt.continueDialog ActivityPrompt.onRecognize (fun _ => true) sampleDC =
      some ({ stack := []
              activity := { type := ActivityType.message, text := "Alice" }
              responded := false },
            none,
            PromptTurnOutcome.ended
              (EndDialogOutcome.completeToCaller
                (some { type := ActivityType.message, text := "Alice" }))) := by
  rw [claim_C5 ActivityPrompt.onRecognize (fun _ => true) sampleDC sampleInstance
        sampleOptions [] rfl rfl rfl]
  rfl

/-- C9: on a turn where the `ActivityPrompt` validator rejects (the re-prompt
branch of `continueDialog` runs), the dialog stack's depth is unchanged — no
frame is popped or pushed — the options persisted in the active frame's
dialog scope are the same before and after the turn, and the outcome is
`Dialog.EndOfTurn` (*waiting*). -/
theorem claim_C9 (recognize : Recognizer) (validator : Validator)
    (dc : DialogContextM) (inst : DialogInstance) (o : PromptOptions)
    (htop : dc.stack.getLast? = some inst)
    (hopts : StateMap.getOpts inst.state ActivityPrompt.PERSISTED_OPTIONS = some o)
    (hrej : validator
        { activity := dc.activity, responded := dc.responded,
          recognized := recognize dc.activity
            (StateMap.getBlob inst.state ActivityPrompt.PERSISTED_STATE) (some o),
          state := StateMap.getBlob inst.state ActivityPrompt.PERSISTED_STATE,
          options := some o } = false) :
    (ActivityPrompt.continueDialog recognize validator dc).map
        (fun r => (r.1.stack.length, DialogContextM.activeOptions r.1, r.2.2)) =
      some (dc.stack.length, some o, PromptTurnOutcome.endOfTurn) ∧
    DialogContextM.activeOptions dc = some o := by
  have hact : DialogContextM.activeOptions dc = some o := by
    simp [DialogContextM.activeOptions, htop, hopts]
  refine ⟨?_, hact⟩
  simp only [ActivityPrompt.continueDialog, htop, hopts, hrej]
  by_cases hm : dc.activity.type = ActivityType.message ∧ dc.responded = false <;>
    simp [hm, hact]

theorem claim_C9_witness :
    (ActivityPrompt.continueDialog ActivityPrompt.onRecognize (fun _ => false)
        sampleDC).map
        (fun r => (r.1.stack.length, DialogContextM.activeOptions r.1, r.2.2)) =
      some (1, some sampleOptions, PromptTurnOutcome.endOfTurn) ∧
    DialogContextM.activeOptions sampleDC = some sampleOptions :=
  claim_C9 ActivityPrompt.onRecognize (fun _ => false) sampleDC sampleInstance
    sampleOptions rfl rfl rfl

/-- C6: `ActivityPrompt.beginDialog` stores the caller's options (after
input-hint defaulting) under the key `"options"` and an empty
recognition-state blob under the key `"state"` in the frame's dialog scope,
emits the initial (non-retry) prompt output — the stored initial prompt when
truthy, nothing otherwise — and returns `Dialog.EndOfTurn` (*waiting*),
leaving the frame on the stack. -/
theorem claim_C6 (options : PromptOptions) (st : StateMap) :
    StateMap.getOpts (ActivityPrompt.beginDialog options st).1
        ActivityPrompt.PERSISTED_OPTIONS =
      some { prompt := ActivityPrompt.fillInputHint options.prompt
             retryPrompt := ActivityPrompt.fillInputHint options.retryPrompt } ∧
    StateMap.getBlob (ActivityPrompt.beginDialog options st).1
        ActivityPrompt.PERSISTED_STATE = some [] ∧
    (ActivityPrompt.beginDialog options st).2.1 =
      (if PromptMsg.truthy (ActivityPrompt.fillInputHint options.prompt) then
         ActivityPrompt.fillInputHint options.prompt
       else none) ∧
    (ActivityPrompt.beginDialog options st).2.2 = Dialog.EndOfTurn := by
  refine ⟨?_, ?_, ?_, rfl⟩
  · show StateMap.getOpts
        (StateMap.set (StateMap.set st ActivityPrompt.PERSISTED_OPTIONS _)
          ActivityPrompt.PERSISTED_STATE _) ActivityPrompt.PERSISTED_OPTIONS = _
    unfold StateMap.getOpts
    rw [StateMap.get_set_ne _ _ _ _ (by decide), StateMap.get_set_self]
  · show StateMap.getBlob
        (StateMap.set _ ActivityPrompt.PERSISTED_STATE _)
          ActivityPrompt.PERSISTED_STATE = _
    unfold StateMap.getBlob
    rw [StateMap.get_set_self]
  · show ActivityPrompt.onPromptOutput _ false = _
    simp [ActivityPrompt.onPromptOutput]

/-- C7 counterexample: the claim says that when the inner stack produces no
consultation the surfaced result is equivalent to *no-interest* (the absent
consultation, `none`); but `ComponentDialog.consultDialog` applied to the
concrete inner result `none` returns a present consultation with desire
`canProcess`, which is not the absent (no-interest) result. -/
theorem claim_C7_counterexample :
    ComponentDialog.consultDialog none = some DialogConsultationDesire.canProcess ∧
    ComponentDialog.consultDialog none ≠ (none : Option DialogConsultationDesire) := by
  refine ⟨rfl, ?_⟩
  decide

/-- C7 (amended): the consultation returned by `ComponentDialog.consultDialog`
carries the aggregated desire of the recursively consulted inner stack
whenever the inner stack produced one; when the inner stack produced no
consultation the component surfaces a present consultation with desire
*can-process* (whose processor invokes the legacy `onContinueDialog`), not a
result equivalent to *no-interest*. -/
theorem claim_C7 (inner : Option DialogConsultationDesire) :
    ComponentDialog.consultDialog inner =
      some (inner.getD DialogConsultationDesire.canProcess) := by
  cases inner <;> rfl

theorem ComponentDialog.addDialogs_preserves_initial (ids : List String)
    (cd : ComponentDialog.Registry) (x : String)
    (h : cd.initialDialogId = some x) :
    (ComponentDialog.addDialogs cd ids).initialDialogId = some x := by
  induction ids generalizing cd with
  | nil => simpa [ComponentDialog.addDialogs] using h
  | cons i rest ih =>
    have hstep : (ComponentDialog.addDialog cd i).initialDialogId = some x := by
      simp [ComponentDialog.addDialog, h]
    simpa [ComponentDialog.addDialogs] using ih (ComponentDialog.addDialog cd i) hstep

/-- C8: for every nonempty sequence of `addDialog` calls on a fresh component
(no `initialDialogId` assigned), the identifier of the first dialog added
becomes `initialDialogId`, and hence the entry point `onBeginDialog` starts on
the inner stack; if the component assigned an `initialDialogId` before the
first `addDialog`, that assignment is kept. -/
theorem claim_C8 (ids : List String) (h : ids ≠ []) (x : String) :
    (ComponentDialog.addDialogs
        { dialogs := [], initialDialogId := none } ids).initialDialogId =
      some (ids.head h) ∧
    ComponentDialog.onBeginDialogTarget
        (ComponentDialog.addDialogs { dialogs := [], initialDialogId := none } ids) =
      some (ids.head h) ∧
    (ComponentDialog.addDialogs
        { dialogs := [], initialDialogId := some x } ids).initialDialogId =
      some x := by
  obtain ⟨i, rest, rfl⟩ := List.exists_cons_of_ne_nil h
  have h1 : (ComponentDialog.addDialogs
      { dialogs := [], initialDialogId := none } (i :: rest)).initialDialogId = some i := by
    have hstep : (ComponentDialog.addDialog
        { dialogs := [], initialDialogId := none } i).initialDialogId = some i := rfl
    simpa [ComponentDialog.addDialogs] using
      ComponentDialog.addDialogs_preserves_initial rest _ i hstep
  exact ⟨h1, h1, ComponentDialog.addDialogs_preserves_initial (i :: rest) _ x rfl⟩

theorem claim_C8_witness :
    (ComponentDialog.addDialogs
        { dialogs := [], initialDialogId := none } ["a", "b"]).initialDialogId =
      some "a" ∧
    ComponentDialog.onBeginDialogTarget
        (ComponentDialog.addDialogs { dialogs := [], initialDialogId := none } ["a", "b"]) =
      some "a" ∧
    (ComponentDialog.addDialogs
        { dialogs := [], initialDialogId := some "z" } ["a", "b"]).initialDialogId =
      some "z" :=
  claim_C8 ["a", "b"] (by decide) "z"

end BotBuilder
